import Mathlib

/-!
Verification of the geo-voice capture pipeline (a Capacitor/React voice-memo app).

The development shallowly embeds the pure utility functions and the capture
session's control flow from the app's React sources:
  * the codec negotiator (`pickSupportedType` over `CANDIDATE_TYPES`),
  * the raw WAV fallback encoder (`encodeWav`),
  * base64 normalization (`toBase64Standard`) and encoding (`arrayBufferToBase64`),
  * extension selection (`mimeToExt`, in its two revisions),
  * the record store (notes index read-modify-write), and
  * the web and native `start`/`stop` session transitions, with the
    environment (getUserMedia, MediaRecorder, the native recorder plugin,
    filesystem writes, geolocation, uuid generation, clocks) passed in as
    explicit inputs.

Floating-point samples are modelled as exact rationals; machine integers as
Nat/Int with explicit `% 2^w` where JavaScript would wrap.
-/

namespace GeoVoice

/-! ### Codec negotiator (part_001 lines 98-126) -/

/-- Core loop of `pickSupportedType` (part_001 lines 120-125), parameterised by
the candidate list and the two capability predicates: return the first
candidate `t` with `isTypeSupported t && canPlay t`, else the empty string. -/
def pickFirstSupported : List String → (String → Bool) → (String → Bool) → String
  | [], _, _ => ""
  | t :: rest, sup, pl => if sup t && pl t then t else pickFirstSupported rest sup pl

/-- The ordered candidate preference list `CANDIDATE_TYPES` (part_001 lines 104-113). -/
def CANDIDATE_TYPES : List String :=
  ["audio/mp4;codecs=mp4a.40.2",
   "audio/mp4",
   "audio/aac",
   "audio/webm;codecs=opus",
   "audio/webm",
   "audio/ogg;codecs=opus",
   "audio/ogg"]

/-- Playability probe `canPlay` (part_001 lines 98-102): the result of
`audio.canPlayType` is truthy iff it is a nonempty string. -/
def canPlay (canPlayType : String → String) (mime : String) : Bool :=
  canPlayType mime ≠ ""

/-- The negotiator `pickSupportedType` (part_001 lines 115-126): if the
`MediaRecorder` backend is unavailable return `""` at once, else scan
`CANDIDATE_TYPES` for the first type both recordable and playable. -/
def pickSupportedType (mrAvailable : Bool) (isTypeSupported pl : String → Bool) : String :=
  if mrAvailable then pickFirstSupported CANDIDATE_TYPES isTypeSupported pl else ""

/-! ### Raw WAV fallback encoder (part_001 lines 136-174) -/

/-- Little-endian bytes of a 16-bit write (`DataView.setUint16`, little-endian). -/
def u16le (n : ℕ) : List ℕ := [n % 256, n / 256 % 256]

/-- Little-endian bytes of a 32-bit write (`DataView.setUint32`, little-endian;
JavaScript wraps the value modulo 2^32, which the byte extraction performs). -/
def u32le (n : ℕ) : List ℕ :=
  [n % 256, n / 256 % 256, n / 65536 % 256, n / 16777216 % 256]

/-- Clamp of one sample, `Math.max(-1, Math.min(1, samples[i]))` (part_001 line 166). -/
def clamp (x : ℚ) : ℚ := max (-1) (min 1 x)

/-- Truncation toward zero of `q * k` for integer `k`, computed on the reduced
numerator and denominator so no rational normalization is needed. This models
the `ToInteger` truncation `DataView.setInt16` applies to the scaled sample. -/
def scaleTrunc (q : ℚ) (k : ℤ) : ℤ := Int.tdiv (q.num * k) (q.den : ℤ)

/-- Quantization of one clamped sample (part_001 line 167):
`s < 0 ? s * 0x8000 : s * 0x7fff`, truncated toward zero. -/
def quantSample (x : ℚ) : ℤ :=
  let s := clamp x
  if s < 0 then scaleTrunc s 32768 else scaleTrunc s 32767

/-- Two's-complement little-endian bytes `setInt16` stores for one sample. -/
def sampleBytes (x : ℚ) : List ℕ := u16le ((quantSample x).emod 65536).toNat

/-- Sequential 16-bit PCM writes of the sample loop (part_001 lines 164-168). -/
def pcmBytes : List ℚ → List ℕ
  | [] => []
  | x :: xs => sampleBytes x ++ pcmBytes xs

/-- ASCII bytes of "RIFF" written by `writeString` (part_001 lines 147, 172-174). -/
def riffTag : List ℕ := [82, 73, 70, 70]

/-- ASCII bytes of "WAVE". -/
def waveTag : List ℕ := [87, 65, 86, 69]

/-- ASCII bytes of "fmt " (with trailing space). -/
def fmtTag : List ℕ := [102, 109, 116, 32]

/-- ASCII bytes of "data". -/
def dataTag : List ℕ := [100, 97, 116, 97]

/-- The WAV encoder `encodeWav` (part_001 lines 137-170), mono 16-bit:
constants are folded as in the source (`numChannels = 1`, `bytesPerSample = 2`,
`blockAlign = 2`, `byteRate = sampleRate * 2`, `dataSize = samples.length * 2`),
and the sequential `DataView` writes at offsets 0..43 followed by the sample
loop are exactly this concatenation. -/
def encodeWav (samples : List ℚ) (sampleRate : ℕ) : List ℕ :=
  riffTag ++ u32le (36 + samples.length * 2) ++
  waveTag ++ fmtTag ++ u32le 16 ++ u16le 1 ++ u16le 1 ++
  u32le sampleRate ++ u32le (sampleRate * 2) ++ u16le 2 ++ u16le 16 ++
  dataTag ++ u32le (samples.length * 2) ++ pcmBytes samples

/-- The decoded fields of a 44-byte WAV header. -/
structure WavHeader where
  chunkSize : ℕ
  audioFormat : ℕ
  numChannels : ℕ
  sampleRate : ℕ
  byteRate : ℕ
  blockAlign : ℕ
  bitsPerSample : ℕ
  dataSize : ℕ
deriving DecidableEq, Repr

/-- Little-endian decode of the 44-byte header (fields at their standard
offsets 4, 20, 22, 24, 28, 32, 34 and 40), returning the decoded fields and
the remaining bytes; `none` if the buffer is shorter than a header. -/
def decodeWavHeader : List ℕ → Option (WavHeader × List ℕ)
  | _r1 :: _r2 :: _r3 :: _r4 :: c1 :: c2 :: c3 :: c4 ::
    _w1 :: _w2 :: _w3 :: _w4 :: _f1 :: _f2 :: _f3 :: _f4 ::
    _s1 :: _s2 :: _s3 :: _s4 :: a1 :: a2 :: ch1 :: ch2 ::
    sr1 :: sr2 :: sr3 :: sr4 :: br1 :: br2 :: br3 :: br4 ::
    ba1 :: ba2 :: bi1 :: bi2 :: _d1 :: _d2 :: _d3 :: _d4 ::
    ds1 :: ds2 :: ds3 :: ds4 :: rest =>
    some ({ chunkSize := c1 + 256 * c2 + 65536 * c3 + 16777216 * c4,
            audioFormat := a1 + 256 * a2,
            numChannels := ch1 + 256 * ch2,
            sampleRate := sr1 + 256 * sr2 + 65536 * sr3 + 16777216 * sr4,
            byteRate := br1 + 256 * br2 + 65536 * br3 + 16777216 * br4,
            blockAlign := ba1 + 256 * ba2,
            bitsPerSample := bi1 + 256 * bi2,
            dataSize := ds1 + 256 * ds2 + 65536 * ds3 + 16777216 * ds4 }, rest)
  | _ => none

/-! ### String helpers modelling `String.prototype.includes` -/

/-- Prefix test on character lists (first argument leads the second). -/
def leadsWith : List Char → List Char → Bool
  | [], _ => true
  | _ :: _, [] => false
  | a :: as, b :: bs => a = b && leadsWith as bs

/-- Substring test on character lists, modelling `hay.includes(needle)`. -/
def containsSeq (needle : List Char) : List Char → Bool
  | [] => leadsWith needle []
  | c :: rest => leadsWith needle (c :: rest) || containsSeq needle rest

/-! ### Base64 normalization `toBase64Standard` (part_001 lines 82-89) -/

/-- Line terminators that the dot of the regex `/^data:.*;base64,/` does not match. -/
def isJsNewline (c : Char) : Bool :=
  c = '\n' || c = '\r' || c = ' ' || c = ' '

/-- Whitespace matched by the JavaScript class `\s` (the members arising in
base64 payload strings; `trim()` is subsumed by the global `\s` removal). -/
def isJsWhitespace (c : Char) : Bool :=
  c = ' ' || c = '\t' || c = '\n' || c = '\r' || c = '\u000b' || c = '\u000c' ||
  c = ' ' || c = ' ' || c = ' ' || c = '﻿'

/-- End position of the (greedy) match of `/^data:.*;base64,/`, if any: the
largest `e` such that the first `e` characters start with `data:`, end with
`;base64,`, and lie before any line terminator. -/
def lastB64End (s : List Char) : Option ℕ :=
  let head := s.takeWhile (fun c => !(isJsNewline c))
  (List.range (head.length + 1)).reverse.find? (fun e =>
    decide (13 ≤ e) &&
    leadsWith ((";base64,").toList.reverse) ((head.take e).reverse))

/-- Removal of a data-URL preamble, `input.replace(/^data:.*;base64,/, "")`
(part_001 line 83): drop through the greedy match when the string starts with
`data:`, otherwise leave the string unchanged. -/
def stripDataUrl (s : List Char) : List Char :=
  if leadsWith (("data:").toList) s then
    match lastB64End s with
    | some e => s.drop e
    | none => s
  else s

/-- The normalized unpadded content: preamble stripped, all whitespace removed
(part_001 lines 83-84, before the alphabet mapping). -/
def strippedB64 (s : List Char) : List Char :=
  (stripDataUrl s).filter (fun c => !(isJsWhitespace c))

/-- URL-safe alphabet mapping: every `-` becomes `+` and every `_` becomes `/`
(the two global regex replacements on part_001 line 84). -/
def mapUrlSafe (c : Char) : Char :=
  if c = '-' then '+' else if c = '_' then '/' else c

/-- The fully normalized unpadded string (part_001 lines 83-84). -/
def normalizeB64 (s : List Char) : List Char := (strippedB64 s).map mapUrlSafe

/-- Normalizer `toBase64Standard` (part_001 lines 82-89). A thrown
`Invalid base64 length` error is modelled as `none`. -/
def toBase64Standard (s : List Char) : Option (List Char) :=
  let b64 := normalizeB64 s
  let pad := b64.length % 4
  if pad = 1 then none
  else if 0 < pad then some (b64 ++ List.replicate (4 - pad) '=')
  else some b64

/-- Membership in the standard base64 alphabet `A-Z a-z 0-9 + /`. -/
def isStdB64Char (c : Char) : Bool :=
  (('A' ≤ c && c ≤ 'Z') || ('a' ≤ c && c ≤ 'z') || ('0' ≤ c && c ≤ '9') ||
   c = '+' || c = '/')

/-- Membership in the URL-safe-or-standard base64 alphabet (adds `-` and `_`). -/
def isUrlSafeB64Char (c : Char) : Bool := isStdB64Char c || c = '-' || c = '_'

/-- Validity of a padded standard base64 string: length a multiple of four, at
most two `=` of padding, all of it trailing, and every other character drawn
from the standard alphabet. -/
def isValidStdB64 (l : List Char) : Bool :=
  decide (l.length % 4 = 0) &&
  decide ((l.reverse.takeWhile (fun c => c = '=')).length ≤ 2) &&
  (l.take (l.length - (l.reverse.takeWhile (fun c => c = '=')).length)).all isStdB64Char

/-! ### Base64 encoding `arrayBufferToBase64` (part_001 lines 91-96): the
`btoa` of the bytes, i.e. standard base64 with `=` padding. -/

/-- The standard base64 alphabet in order. -/
def b64Alphabet : List Char :=
  ("ABCDEFGHIJKLMNOPQRSTUVWXYZabcdefghijklmnopqrstuvwxyz0123456789+/").toList

/-- Character for a 6-bit group. -/
def b64CharAt (n : ℕ) : Char := b64Alphabet.getD n 'A'

/-- Base64 of a byte list, three bytes to four characters, `=`-padded. -/
def base64Chars : List ℕ → List Char
  | [] => []
  | [a] => [b64CharAt (a / 4), b64CharAt (a % 4 * 16), '=', '=']
  | [a, b] => [b64CharAt (a / 4), b64CharAt (a % 4 * 16 + b / 16),
               b64CharAt (b % 16 * 4), '=']
  | a :: b :: c :: rest =>
      b64CharAt (a / 4) :: b64CharAt (a % 4 * 16 + b / 16) ::
      b64CharAt (b % 16 * 4 + c / 64) :: b64CharAt (c % 64) :: base64Chars rest

/-- Model of `arrayBufferToBase64` (part_001 lines 91-96). -/
def arrayBufferToBase64 (bytes : List ℕ) : String := String.mk (base64Chars bytes)

/-! ### Extension selection -/

/-- Extension chooser `mimeToExt` of part_001 (lines 128-134): empty mime is
falsy and yields `webm`; then substring checks for `mp4`, `aac`, `ogg`. -/
def mimeToExt (m : String) : String :=
  if m = "" then "webm"
  else if containsSeq (("mp4").toList) m.toList then "m4a"
  else if containsSeq (("aac").toList) m.toList then "aac"
  else if containsSeq (("ogg").toList) m.toList then "ogg"
  else "webm"

/-- Inline extension chooser of the native stop path (part_001 line 367 and
App.tsx line 282): `mp3` / `wav` substring checks, defaulting to `m4a`. -/
def nativeExt (m : String) : String :=
  if containsSeq (("mp3").toList) m.toList then "mp3"
  else if containsSeq (("wav").toList) m.toList then "wav"
  else "m4a"

end GeoVoice

namespace GeoVoiceV0

/-- Extension chooser `mimeToExt` of part_000 (lines 106-113), which adds a
`wav` branch but still has no case matching the mime `audio/m4a`. -/
def mimeToExt (m : String) : String :=
  if m = "" then "webm"
  else if GeoVoice.containsSeq (("mp4").toList) m.toList then "m4a"
  else if GeoVoice.containsSeq (("aac").toList) m.toList then "aac"
  else if GeoVoice.containsSeq (("ogg").toList) m.toList then "ogg"
  else if GeoVoice.containsSeq (("wav").toList) m.toList then "wav"
  else "webm"

end GeoVoiceV0

namespace GeoVoice

/-! ### Data model: records and the store (part_001 lines 32-69) -/

/-- The UI lifecycle phase `UIStatus` (part_001 line 208). -/
inductive UIStatus
  | IDLE
  | RECORDING
  | SAVED
  | FAILED_TO_RECORD
deriving DecidableEq, Repr

/-- A persisted record, the `Note` type (part_001 lines 32-42). The optional
`durationMs` and `mimeType` fields are always set on the paths modelled here,
so they are stored directly. -/
structure Note where
  id : String
  filePath : String
  webPath : String
  createdAt : String
  lat : ℚ
  lon : ℚ
  label : String
  durationMs : ℕ
  mimeType : String
deriving DecidableEq, Repr

/-- The persistent store: payload files written through `Filesystem.writeFile`
(path and base64 data, most recent first) and the parsed contents of the
`notesIndex.json` index (`readNotes` / `writeNotes`, part_001 lines 50-69; the
JSON round trip is abstracted away, and a missing index reads as `[]`). -/
structure Store where
  files : List (String × String)
  notes : List Note
deriving DecidableEq, Repr

/-- A store with no payload files and no (or an unreadable) index. -/
def emptyStore : Store := { files := [], notes := [] }

/-- Reading the index, `readNotes` (part_001 lines 50-59). -/
def readNotes (st : Store) : List Note := st.notes

/-- One append as performed at part_001 lines 340 and 354-355: write the
payload file, then read-modify-write the index, prepending the new record. -/
def appendRecord (payloadPath payload : String) (n : Note) (st : Store) : Store :=
  { files := (payloadPath, payload) :: st.files, notes := n :: st.notes }

/-! ### Capture session state (part_001 lines 210-230) -/

/-- The mutable session state of `RecordView`: React state plus the refs. Refs
that hold external handles are tracked as booleans (is a handle stored). -/
structure SessionState where
  isRecording : Bool
  elapsed : ℕ
  uiStatus : UIStatus
  timerOn : Bool
  positionRef : Option (ℚ × ℚ)
  mediaRecorderRef : Bool
  mediaStreamRef : Bool
  mediaChunks : List (List ℕ)
  mimeTypeRef : String
  wavUseFallback : Bool
  audioCtxOpen : Bool
  sourceConnected : Bool
  procConnected : Bool
  pcmBuffers : List (List ℚ)
  sampleRate : ℕ
deriving DecidableEq, Repr

/-- Ambient capture resources, counted independently of the session's refs so
that a leak remains visible after a ref is dropped: live `getUserMedia` streams
(acquired tracks not yet stopped), audio contexts not yet closed, and connected
processing-graph edges. -/
structure Resources where
  liveStreams : ℕ
  openAudioContexts : ℕ
  connectedNodes : ℕ
deriving DecidableEq, Repr

/-- No ambient capture resources held. -/
def noResources : Resources := { liveStreams := 0, openAudioContexts := 0, connectedNodes := 0 }

/-- The initial session state (initial `useState` / `useRef` values,
part_001 lines 211-230). -/
def initialSession : SessionState :=
  { isRecording := false, elapsed := 0, uiStatus := .IDLE, timerOn := false,
    positionRef := none, mediaRecorderRef := false, mediaStreamRef := false,
    mediaChunks := [], mimeTypeRef := "", wavUseFallback := false,
    audioCtxOpen := false, sourceConnected := false, procConnected := false,
    pcmBuffers := [], sampleRate := 44100 }

/-- Environment of one web `start()` call (part_001 lines 259-308): the
geolocation snapshot outcome, whether `getUserMedia` resolves, the
`MediaRecorder` capability probes, whether the recorder and audio-context
constructors succeed, and the context's reported sample rate. -/
structure StartEnvWeb where
  geoResult : Option (ℚ × ℚ)
  gumOk : Bool
  mrAvailable : Bool
  isTypeSupported : String → Bool
  canPlayProbe : String → Bool
  mrConstructOk : Bool
  audioCtxOk : Bool
  ctxSampleRate : ℕ

/-- The web `start()` transition (part_001 lines 259-308). Every catch in the
source only sets the failure status, so acquired-but-unreferenced resources are
carried over unchanged. -/
def startWeb (env : StartEnvWeb) (s : SessionState) (r : Resources) :
    SessionState × Resources :=
  -- best-effort location snapshot (lines 263-266)
  let s := match env.geoResult with
    | some p => { s with positionRef := some p }
    | none => s
  if !env.gumOk then
    -- getUserMedia rejected: catch at lines 305-307
    ({ s with uiStatus := .FAILED_TO_RECORD }, r)
  else
    let r := { r with liveStreams := r.liveStreams + 1 }
    let chosen := pickSupportedType env.mrAvailable env.isTypeSupported env.canPlayProbe
    if chosen ≠ "" then
      if !env.mrConstructOk then
        -- the MediaRecorder constructor threw after line 272 stored the mime
        ({ s with mimeTypeRef := chosen, uiStatus := .FAILED_TO_RECORD }, r)
      else
        ({ s with
            mimeTypeRef := chosen, mediaChunks := [], mediaRecorderRef := true,
            mediaStreamRef := true, wavUseFallback := false, isRecording := true,
            uiStatus := .RECORDING, elapsed := 0, timerOn := true }, r)
    else
      if !env.audioCtxOk then
        -- the AudioContext constructor threw (line 282): catch at 305-307
        ({ s with uiStatus := .FAILED_TO_RECORD }, r)
      else
        ({ s with
            pcmBuffers := [], sampleRate := env.ctxSampleRate,
            audioCtxOpen := true, sourceConnected := true, procConnected := true,
            mediaStreamRef := true, wavUseFallback := true, mimeTypeRef := "audio/wav",
            isRecording := true, uiStatus := .RECORDING, elapsed := 0, timerOn := true },
         { r with
            openAudioContexts := r.openAudioContexts + 1,
            connectedNodes := r.connectedNodes + 2 })

/-- One `onaudioprocess` callback (part_001 lines 287-290): copy the delivered
block into the accumulation buffer. -/
def pushPcmBlock (b : List ℚ) (s : SessionState) : SessionState :=
  { s with pcmBuffers := s.pcmBuffers ++ [b] }

/-- A sequence of delivered PCM blocks. -/
def pushPcmBlocks (bs : List (List ℚ)) (s : SessionState) : SessionState :=
  bs.foldl (fun s b => pushPcmBlock b s) s

/-- One `ondataavailable` callback on the MediaRecorder path (part_001
line 275): nonempty chunks are collected. -/
def pushChunk (c : List ℕ) (s : SessionState) : SessionState :=
  if c.length ≠ 0 then { s with mediaChunks := s.mediaChunks ++ [c] } else s

/-- One elapsed-timer tick (part_001 lines 247-252), updating the display
time while the timer is live. -/
def tick (ms : ℕ) (s : SessionState) : SessionState :=
  if s.timerOn then { s with elapsed := ms } else s

/-- Merging the accumulated PCM blocks (part_001 lines 327-329): sequential
copies into one buffer, i.e. in-order concatenation. -/
def mergeBuffers : List (List ℚ) → List ℚ
  | [] => []
  | b :: bs => b ++ mergeBuffers bs

/-- Blob concatenation for `new Blob(chunks)` (part_001 line 319). -/
def concatChunks : List (List ℕ) → List ℕ
  | [] => []
  | c :: cs => c ++ concatChunks cs

/-- Environment of one web `stop()` call (part_001 lines 310-360): whether the
payload write and the index write succeed, the generated uuid and the two
timestamp strings. -/
structure StopEnvWeb where
  fsWriteOk : Bool
  indexWriteOk : Bool
  newId : String
  nowIso : String
  nowLocale : String

/-- Result of a `stop()` call on the web path. -/
structure WebStopOut where
  state : SessionState
  res : Resources
  store : Store
  saved : Option Note
deriving Repr

/-- The shared persistence tail of the web `stop()` (part_001 lines 334-359):
base64-encode the blob, write the payload file under `audio/<id>.<ext>`, build
the record and prepend it to the index. -/
def persistWeb (env : StopEnvWeb) (s : SessionState) (r : Resources) (st : Store)
    (blobData : List ℕ) (blobType : String) : WebStopOut :=
  let base64 := arrayBufferToBase64 blobData
  let ext := if !s.wavUseFallback then mimeToExt blobType else "wav"
  let filename := "audio/" ++ env.newId ++ "." ++ ext
  if !env.fsWriteOk then
    -- Filesystem.writeFile threw: catch at lines 376-378
    { state := { s with isRecording := false, uiStatus := .FAILED_TO_RECORD },
      res := r, store := st, saved := none }
  else
    let st := { st with files := (filename, base64) :: st.files }
    let note : Note :=
      { id := env.newId, filePath := filename,
        webPath := "data:" ++ blobType ++ ";base64," ++ base64,
        createdAt := env.nowIso,
        lat := (s.positionRef.map (fun p => p.1)).getD 0,
        lon := (s.positionRef.map (fun p => p.2)).getD 0,
        label := env.nowLocale, durationMs := s.elapsed, mimeType := blobType }
    if !env.indexWriteOk then
      -- writeNotes threw after the payload write: catch at lines 376-378
      { state := { s with isRecording := false, uiStatus := .FAILED_TO_RECORD },
        res := r, store := st, saved := none }
    else
      { state := { s with isRecording := false, uiStatus := .SAVED },
        res := r, store := { st with notes := note :: st.notes }, saved := some note }

/-- The web `stop()` transition (part_001 lines 310-360). On the MediaRecorder
branch the source stops the recorder and awaits the final blob but never stops
the stream's tracks; only the WAV-fallback branch disconnects the processing
graph, closes the context and stops the tracks (lines 324-326). -/
def stopWeb (env : StopEnvWeb) (s : SessionState) (r : Resources) (st : Store) :
    WebStopOut :=
  let s := { s with timerOn := false }  -- stopTimer (line 312)
  if !s.wavUseFallback then
    if !s.mediaRecorderRef then
      -- throw new Error("No recorder"): catch at lines 376-378
      { state := { s with isRecording := false, uiStatus := .FAILED_TO_RECORD },
        res := r, store := st, saved := none }
    else
      let blobType := if s.mimeTypeRef = "" then "audio/webm" else s.mimeTypeRef
      persistWeb env s r st (concatChunks s.mediaChunks) blobType
  else
    -- lines 324-331: release the graph, close the context, stop the tracks
    let r := { r with
      connectedNodes :=
        r.connectedNodes - ((if s.procConnected then 1 else 0) +
                            (if s.sourceConnected then 1 else 0)),
      openAudioContexts := r.openAudioContexts - (if s.audioCtxOpen then 1 else 0),
      liveStreams := r.liveStreams - (if s.mediaStreamRef then 1 else 0) }
    let s := { s with procConnected := false, sourceConnected := false,
                      audioCtxOpen := false }
    persistWeb env s r st (encodeWav (mergeBuffers s.pcmBuffers) s.sampleRate) "audio/wav"

/-! ### Native stop path (part_001 lines 362-378) -/

/-- The value the delegated capture facility's `stopRecording()` resolves with
(the `capacitor-voice-recorder` result shape). -/
structure NativeResult where
  recordDataBase64 : Option String
  msDuration : Option ℕ
  mimeType : Option String
deriving DecidableEq, Repr

/-- Environment of one native `stop()` call: the plugin's result (`none` when
`stopRecording()` rejects), the filesystem outcomes, the uri resolver
(`Filesystem.getUri` composed with `Capacitor.convertFileSrc`), the best-effort
location refetch, the generated uuid and timestamps. -/
structure StopEnvNative where
  result : Option NativeResult
  fsWriteOk : Bool
  getUriOk : Bool
  indexWriteOk : Bool
  resolveSrc : String → String
  geoResult : Option (ℚ × ℚ)
  newId : String
  nowIso : String
  nowLocale : String

/-- Result of a `stop()` call on the native path. -/
structure NativeStopOut where
  state : SessionState
  store : Store
  saved : Option Note
deriving Repr

/-- An empty string is falsy in `!rawBase64`, so a missing and an empty
payload take the same throw. -/
def payloadMissing (o : Option String) : Bool :=
  match o with
  | none => true
  | some s => s = ""

/-- The native `stop()` transition (part_001 lines 362-378): unwrap the plugin
result, default the mime to `audio/m4a` (also when reported empty, since `||`
treats `""` as falsy), reject a missing or empty payload, normalize the base64,
choose an extension, write the payload, resolve the playback uri, refetch the
location if absent, and prepend the record to the index. -/
def stopNative (env : StopEnvNative) (s : SessionState) (st : Store) : NativeStopOut :=
  let s := { s with timerOn := false }  -- stopTimer (line 312)
  match env.result with
  | none =>
    -- stopRecording() rejected: catch at lines 376-378
    { state := { s with isRecording := false, uiStatus := .FAILED_TO_RECORD },
      store := st, saved := none }
  | some res =>
    let s := { s with isRecording := false }  -- line 364
    let mime := match res.mimeType with
      | some m => if m = "" then "audio/m4a" else m
      | none => "audio/m4a"
    if payloadMissing res.recordDataBase64 then
      -- throw new Error("No audio data"): catch at lines 376-378
      { state := { s with uiStatus := .FAILED_TO_RECORD }, store := st, saved := none }
    else
      match toBase64Standard (res.recordDataBase64.getD "").toList with
      | none =>
        -- toBase64Standard threw: catch at lines 376-378
        { state := { s with uiStatus := .FAILED_TO_RECORD }, store := st, saved := none }
      | some base64 =>
        let filename := "audio/" ++ env.newId ++ "." ++ nativeExt mime
        if !env.fsWriteOk then
          { state := { s with uiStatus := .FAILED_TO_RECORD }, store := st, saved := none }
        else
          let st := { st with files := (filename, String.mk base64) :: st.files }
          if !env.getUriOk then
            { state := { s with uiStatus := .FAILED_TO_RECORD }, store := st, saved := none }
          else
            let s := match s.positionRef, env.geoResult with
              | none, some p => { s with positionRef := some p }
              | _, _ => s
            let note : Note :=
              { id := env.newId, filePath := filename,
                webPath := env.resolveSrc filename, createdAt := env.nowIso,
                lat := (s.positionRef.map (fun p => p.1)).getD 0,
                lon := (s.positionRef.map (fun p => p.2)).getD 0,
                label := env.nowLocale,
                durationMs := res.msDuration.getD s.elapsed, mimeType := mime }
            if !env.indexWriteOk then
              { state := { s with uiStatus := .FAILED_TO_RECORD }, store := st, saved := none }
            else
              { state := { s with uiStatus := .SAVED },
                store := { st with notes := note :: st.notes }, saved := some note }

end GeoVoice

namespace GeoVoiceV0

/-- The iOS `stop()` transition of part_000 (lines 236-259): same pipeline as
part_001's native stop, but guarded by a plugin-availability probe, without the
location refetch, and with the extension chosen by part_000's `mimeToExt`. -/
def stopIOS (pluginAvailable : Bool) (env : GeoVoice.StopEnvNative)
    (s : GeoVoice.SessionState) (st : GeoVoice.Store) : GeoVoice.NativeStopOut :=
  let s := { s with timerOn := false }  -- stopTimer (line 234)
  if !pluginAvailable then
    -- status IOS_PLUGIN_NOT_LINKED (line 239); isRecording is left untouched
    { state := { s with uiStatus := .FAILED_TO_RECORD }, store := st, saved := none }
  else
    match env.result with
    | none =>
      -- stopRecording() rejected: catch at lines 256-258
      { state := { s with isRecording := false, uiStatus := .FAILED_TO_RECORD },
        store := st, saved := none }
    | some res =>
      let s := { s with isRecording := false }  -- line 244
      let mime := match res.mimeType with
        | some m => if m = "" then "audio/m4a" else m
        | none => "audio/m4a"
      if GeoVoice.payloadMissing res.recordDataBase64 then
        { state := { s with uiStatus := .FAILED_TO_RECORD }, store := st, saved := none }
      else
        match GeoVoice.toBase64Standard (res.recordDataBase64.getD "").toList with
        | none =>
          { state := { s with uiStatus := .FAILED_TO_RECORD }, store := st, saved := none }
        | some base64 =>
          let filename := "audio/" ++ env.newId ++ "." ++ mimeToExt mime
          if !env.fsWriteOk then
            { state := { s with uiStatus := .FAILED_TO_RECORD }, store := st, saved := none }
          else
            let st := { st with files := (filename, String.mk base64) :: st.files }
            if !env.getUriOk then
              { state := { s with uiStatus := .FAILED_TO_RECORD }, store := st, saved := none }
            else
              let note : GeoVoice.Note :=
                { id := env.newId, filePath := filename,
                  webPath := env.resolveSrc filename, createdAt := env.nowIso,
                  lat := (s.positionRef.map (fun p => p.1)).getD 0,
                  lon := (s.positionRef.map (fun p => p.2)).getD 0,
                  label := env.nowLocale,
                  durationMs := res.msDuration.getD s.elapsed, mimeType := mime }
              if !env.indexWriteOk then
                { state := { s with uiStatus := .FAILED_TO_RECORD }, store := st, saved := none }
              else
                { state := { s with uiStatus := .SAVED },
                  store := { st with notes := note :: st.notes }, saved := some note }

end GeoVoiceV0

namespace GeoVoice

/-! ## Helper lemmas -/

/-- Each 16-bit sample contributes exactly two bytes of data. -/
theorem pcmBytes_length (l : List ℚ) : (pcmBytes l).length = 2 * l.length := by
  induction l with
  | nil => simp [pcmBytes]
  | cons x xs ih => simp [pcmBytes, sampleBytes, u16le, ih]; omega

/-- Raw little-endian decode of the header `encodeWav` writes, with the byte
recombination still in divide-and-mod form. -/
theorem encodeWav_decode_raw (samples : List ℚ) (R : ℕ) :
    decodeWavHeader (encodeWav samples R) =
      some ({ chunkSize := (36 + samples.length * 2) % 256 +
                256 * ((36 + samples.length * 2) / 256 % 256) +
                65536 * ((36 + samples.length * 2) / 65536 % 256) +
                16777216 * ((36 + samples.length * 2) / 16777216 % 256),
              audioFormat := 1,
              numChannels := 1,
              sampleRate := R % 256 + 256 * (R / 256 % 256) +
                65536 * (R / 65536 % 256) + 16777216 * (R / 16777216 % 256),
              byteRate := R * 2 % 256 + 256 * (R * 2 / 256 % 256) +
                65536 * (R * 2 / 65536 % 256) + 16777216 * (R * 2 / 16777216 % 256),
              blockAlign := 2,
              bitsPerSample := 16,
              dataSize := samples.length * 2 % 256 +
                256 * (samples.length * 2 / 256 % 256) +
                65536 * (samples.length * 2 / 65536 % 256) +
                16777216 * (samples.length * 2 / 16777216 % 256) }, pcmBytes samples) := by
  simp [encodeWav, riffTag, waveTag, fmtTag, dataTag, u32le, u16le, decodeWavHeader]

/-- A sample at least 1 clamps to 1. -/
theorem clamp_of_one_le (x : ℚ) (h : 1 ≤ x) : clamp x = 1 := by
  unfold clamp
  rw [min_eq_left h, max_eq_right (by norm_num : (-1 : ℚ) ≤ 1)]

/-- A sample at most -1 clamps to -1. -/
theorem clamp_of_le_neg_one (x : ℚ) (h : x ≤ -1) : clamp x = -1 := by
  unfold clamp
  rw [min_eq_right (h.trans (by norm_num : (-1 : ℚ) ≤ 1)), max_eq_left h]

/-- Quantization only looks at the clamped value. -/
theorem quant_eq_of_clamp_eq (x y : ℚ) (h : clamp x = clamp y) :
    quantSample x = quantSample y := by
  unfold quantSample; rw [h]

/-! ## C1: codec negotiation -/

/-- C1. For every ordered candidate list and every pair of predicates (with the
empty string reserved as the distinguished "none" result, hence not itself a
candidate), the negotiation loop returns `""` iff no candidate satisfies both
predicates, and a non-`""` result is the first candidate in list order
satisfying both: the candidates strictly before it all fail. -/
theorem pickFirstSupported_spec (cands : List String) (p q : String → Bool)
    (hne : "" ∉ cands) :
    (pickFirstSupported cands p q = "" ↔ ∀ c ∈ cands, ¬(p c = true ∧ q c = true)) ∧
    (pickFirstSupported cands p q ≠ "" →
      ∃ pre suf, cands = pre ++ pickFirstSupported cands p q :: suf ∧
        p (pickFirstSupported cands p q) = true ∧
        q (pickFirstSupported cands p q) = true ∧
        ∀ c ∈ pre, ¬(p c = true ∧ q c = true)) := by
  induction cands with
  | nil => simp [pickFirstSupported]
  | cons t rest ih =>
    have hts : t ≠ "" := fun h => hne (h ▸ List.mem_cons_self t rest)
    have hne2 : "" ∉ rest := fun h => hne (List.mem_cons_of_mem t h)
    obtain ⟨ih1, ih2⟩ := ih hne2
    by_cases h : (p t && q t) = true
    · obtain ⟨hp, hq⟩ := Bool.and_eq_true_iff.mp h
      constructor
      · constructor
        · intro he
          exact absurd (by simpa [pickFirstSupported, h] using he) hts
        · intro hall
          exact absurd ⟨hp, hq⟩ (hall t (List.mem_cons_self t rest))
      · intro _
        refine ⟨[], rest, ?_, ?_, ?_, ?_⟩
        · simp [pickFirstSupported, h]
        · simpa [pickFirstSupported, h] using hp
        · simpa [pickFirstSupported, h] using hq
        · simp
    · have hnot : ¬(p t = true ∧ q t = true) := by
        intro ⟨hp, hq⟩; exact h (by simp [hp, hq])
      have hpick : pickFirstSupported (t :: rest) p q = pickFirstSupported rest p q := by
        simp [pickFirstSupported, h]
      constructor
      · rw [hpick, ih1]
        constructor
        · intro hall c hc
          rcases List.mem_cons.mp hc with rfl | hc
          · exact hnot
          · exact hall c hc
        · intro hall c hc
          exact hall c (List.mem_cons_of_mem t hc)
      · intro hnz
        rw [hpick] at hnz
        obtain ⟨pre, suf, heq, hp, hq, hpre⟩ := ih2 hnz
        refine ⟨t :: pre, suf, ?_, ?_, ?_, ?_⟩
        · rw [hpick, List.cons_append, ← heq]
        · rw [hpick]; exact hp
        · rw [hpick]; exact hq
        · intro c hc
          rcases List.mem_cons.mp hc with rfl | hc
          · exact hnot
          · exact hpre c hc

/-- Witness for C1, instantiated at the app's own `CANDIDATE_TYPES` list with
both predicates constantly false: negotiation yields `""` and the
characterisation applies. -/
theorem pickFirstSupported_spec_witness :
    pickFirstSupported CANDIDATE_TYPES (fun _ => false) (fun _ => false) = "" ↔
      ∀ c ∈ CANDIDATE_TYPES,
        ¬((fun _ => false) c = true ∧ (fun _ => false) c = true) :=
  (pickFirstSupported_spec CANDIDATE_TYPES (fun _ => false) (fun _ => false) (by decide)).1

/-! ## C2: WAV container shape -/

/-- C2. For `N` samples at rate `R` (within the 32-bit ranges the header can
represent), `encodeWav` emits `44 + 2N` bytes; the 44-byte header decodes
little-endian to `chunkSize = 36 + 2N`, format tag 1 (linear PCM), one channel,
sample rate `R`, byte rate `R * 2`, block align 2, 16 bits per sample and
`dataSize = 2N`; and the header is followed by exactly the `2N` PCM data
bytes. -/
theorem encodeWav_spec (samples : List ℚ) (R : ℕ)
    (hR : 2 * R < 4294967296) (hN : 36 + 2 * samples.length < 4294967296) :
    (encodeWav samples R).length = 44 + 2 * samples.length ∧
    decodeWavHeader (encodeWav samples R) =
      some ({ chunkSize := 36 + 2 * samples.length, audioFormat := 1, numChannels := 1,
              sampleRate := R, byteRate := R * 2, blockAlign := 2, bitsPerSample := 16,
              dataSize := 2 * samples.length }, pcmBytes samples) := by
  constructor
  · simp [encodeWav, riffTag, waveTag, fmtTag, dataTag, u32le, u16le, pcmBytes_length]
    omega
  · rw [encodeWav_decode_raw]
    simp only [Option.some.injEq, Prod.mk.injEq, WavHeader.mk.injEq, and_true, true_and]
    omega

/-- Witness for C2 at one sample and rate 44100. -/
theorem encodeWav_spec_witness :
    (encodeWav [mkRat 1 2] 44100).length = 44 + 2 * ([mkRat 1 2]).length ∧
    decodeWavHeader (encodeWav [mkRat 1 2] 44100) =
      some ({ chunkSize := 36 + 2 * ([mkRat 1 2]).length, audioFormat := 1, numChannels := 1,
              sampleRate := 44100, byteRate := 44100 * 2, blockAlign := 2, bitsPerSample := 16,
              dataSize := 2 * ([mkRat 1 2]).length }, pcmBytes [mkRat 1 2]) :=
  encodeWav_spec [mkRat 1 2] 44100 (by norm_num) (by norm_num)

/-! ## C4: clamping before quantization -/

/-- C4. `encodeWav` clamps each sample to `[-1, 1]` before quantizing: any
sample at least 1 quantizes exactly as 1 does, any sample at most -1 exactly as
-1 does; in particular the encodings of 1.5 (`mkRat 3 2`) and 1, and of -1.5
and -1, coincide byte for byte, with the boundary values quantizing to 32767
(scaling by 32767 on the non-negative side) and -32768 (scaling by 32768 on
the negative side). -/
theorem encodeWav_clamps :
    (∀ x : ℚ, 1 ≤ x → quantSample x = quantSample 1) ∧
    (∀ x : ℚ, x ≤ -1 → quantSample x = quantSample (-1)) ∧
    (∀ R : ℕ, encodeWav [mkRat 3 2] R = encodeWav [1] R) ∧
    (∀ R : ℕ, encodeWav [mkRat (-3) 2] R = encodeWav [-1] R) ∧
    quantSample 1 = 32767 ∧ quantSample (-1) = -32768 := by
  have hpos : ∀ x : ℚ, 1 ≤ x → quantSample x = quantSample 1 := fun x h =>
    quant_eq_of_clamp_eq x 1 (by rw [clamp_of_one_le x h, clamp_of_one_le 1 le_rfl])
  have hneg : ∀ x : ℚ, x ≤ -1 → quantSample x = quantSample (-1) := fun x h =>
    quant_eq_of_clamp_eq x (-1) (by rw [clamp_of_le_neg_one x h, clamp_of_le_neg_one (-1) le_rfl])
  refine ⟨hpos, hneg, ?_, ?_, by decide, by decide⟩
  · intro R
    have hs : sampleBytes (mkRat 3 2) = sampleBytes 1 := by
      unfold sampleBytes
      rw [hpos (mkRat 3 2) (by decide)]
    simp [encodeWav, pcmBytes, hs]
  · intro R
    have hs : sampleBytes (mkRat (-3) 2) = sampleBytes (-1) := by
      unfold sampleBytes
      rw [hneg (mkRat (-3) 2) (by decide)]
    simp [encodeWav, pcmBytes, hs]

/-- Witness for C4 at the spec's own sample values 1.5 and -1.5. -/
theorem encodeWav_clamps_witness :
    quantSample (mkRat 3 2) = quantSample 1 ∧
    quantSample (mkRat (-3) 2) = quantSample (-1) :=
  ⟨encodeWav_clamps.1 (mkRat 3 2) (by decide),
   encodeWav_clamps.2.1 (mkRat (-3) 2) (by decide)⟩

/-! ## C5: base64 normalization -/

/-- Mapping the URL-safe alphabet lands in the standard alphabet. -/
theorem mapUrlSafe_std (c : Char) (h : isUrlSafeB64Char c = true) :
    isStdB64Char (mapUrlSafe c) = true := by
  by_cases h1 : c = '-'
  · subst h1; decide
  · by_cases h2 : c = '_'
    · subst h2; decide
    · have he : mapUrlSafe c = c := by simp [mapUrlSafe, h1, h2]
      rw [he]
      simpa [isUrlSafeB64Char, h1, h2] using h

/-- The mapping never produces a URL-safe-only character. -/
theorem mapUrlSafe_ne_dash (c : Char) : mapUrlSafe c ≠ '-' ∧ mapUrlSafe c ≠ '_' := by
  by_cases h1 : c = '-'
  · subst h1; decide
  · by_cases h2 : c = '_'
    · subst h2; decide
    · have he : mapUrlSafe c = c := by simp [mapUrlSafe, h1, h2]
      rw [he]
      exact ⟨h1, h2⟩

/-- Trailing-pad count of a body with no `=` followed by `k` pads. -/
theorem padCount_eq (b : List Char) (k : ℕ) (hne : ∀ c ∈ b, c ≠ '=') :
    ((b ++ List.replicate k '=').reverse.takeWhile (fun c => c = '=')).length = k := by
  rw [List.reverse_append, List.reverse_replicate]
  induction k with
  | zero =>
    simp only [List.replicate, List.nil_append]
    cases hbr : b.reverse with
    | nil => simp [List.takeWhile]
    | cons c l =>
      have hc : c ∈ b := List.mem_reverse.mp (hbr ▸ List.mem_cons_self c l)
      simp [List.takeWhile, hne c hc]
  | succ n ih =>
    simp only [List.replicate_succ, List.cons_append, List.takeWhile]
    simpa using ih

/-- A standard-alphabet body with at most two pads and total length a multiple
of four is valid standard base64. -/
theorem isValidStdB64_append_pad (b : List Char) (k : ℕ)
    (hlen : (b.length + k) % 4 = 0) (hk : k ≤ 2)
    (hstd : b.all isStdB64Char = true) :
    isValidStdB64 (b ++ List.replicate k '=') = true := by
  have hne : ∀ c ∈ b, c ≠ '=' := by
    intro c hc he
    have hcs := List.all_eq_true.mp hstd c hc
    rw [he] at hcs
    exact absurd hcs (by decide)
  have hpad := padCount_eq b k hne
  have hl : (b ++ List.replicate k '=').length = b.length + k := by simp
  have ht : b.length + k - k = b.length := by omega
  unfold isValidStdB64
  rw [hpad, hl, ht, List.take_left]
  simp [hlen, hk, hstd]

/-- The normalized content holds no URL-safe-only characters. -/
theorem normalize_no_urlsafe (s : List Char) :
    '-' ∉ normalizeB64 s ∧ '_' ∉ normalizeB64 s := by
  constructor
  · intro hm
    obtain ⟨c, _, he⟩ := List.mem_map.mp hm
    exact (mapUrlSafe_ne_dash c).1 he
  · intro hm
    obtain ⟨c, _, he⟩ := List.mem_map.mp hm
    exact (mapUrlSafe_ne_dash c).2 he

/-- When the stripped input stays inside the URL-safe-or-standard alphabet,
the normalized content is entirely standard-alphabet. -/
theorem normalize_all_std (s : List Char)
    (hall : (strippedB64 s).all isUrlSafeB64Char = true) :
    (normalizeB64 s).all isStdB64Char = true := by
  rw [normalizeB64, List.all_map]
  rw [List.all_eq_true] at hall ⊢
  intro c hc
  simpa [Function.comp] using mapUrlSafe_std c (hall c hc)

/-- C5 (amended). `toBase64Standard` rejects its input exactly when the
normalized unpadded length is 1 mod 4; any returned string has length a
multiple of four and retains no URL-safe-only characters; and — the amendment —
the returned string is valid standard base64 provided the normalized input
consists of base64-alphabet characters (for arbitrary input characters validity
can fail, see the counterexample). -/
theorem toBase64Standard_spec (s : List Char) :
    (toBase64Standard s = none ↔ (normalizeB64 s).length % 4 = 1) ∧
    (∀ out, toBase64Standard s = some out →
      out.length % 4 = 0 ∧ '-' ∉ out ∧ '_' ∉ out ∧
      ((strippedB64 s).all isUrlSafeB64Char = true → isValidStdB64 out = true)) := by
  by_cases h1 : (normalizeB64 s).length % 4 = 1
  · refine ⟨by simp [toBase64Standard, h1], ?_⟩
    intro out hout
    simp [toBase64Standard, h1] at hout
  · refine ⟨by simp [toBase64Standard, h1]; split <;> simp, ?_⟩
    intro out hout
    by_cases h0 : (normalizeB64 s).length % 4 = 0
    · have hout2 : out = normalizeB64 s := by
        simp [toBase64Standard, h1, h0] at hout
        exact hout.symm
      subst hout2
      refine ⟨h0, (normalize_no_urlsafe s).1, (normalize_no_urlsafe s).2, ?_⟩
      intro hall
      have hr : normalizeB64 s = normalizeB64 s ++ List.replicate 0 '=' := by simp
      rw [hr]
      exact isValidStdB64_append_pad _ 0 (by simpa using h0) (by norm_num)
        (normalize_all_std s hall)
    · have hpos : 0 < (normalizeB64 s).length % 4 := Nat.pos_of_ne_zero h0
      have hlt : (normalizeB64 s).length % 4 < 4 := Nat.mod_lt _ (by norm_num)
      have hout2 : out = normalizeB64 s ++
          List.replicate (4 - (normalizeB64 s).length % 4) '=' := by
        simp [toBase64Standard, h1, hpos, Nat.not_eq_zero_of_lt hpos] at hout
        exact hout.symm
      subst hout2
      refine ⟨?_, ?_, ?_, ?_⟩
      · simp only [List.length_append, List.length_replicate]
        omega
      · intro hm
        rcases List.mem_append.mp hm with hm1 | hm2
        · exact (normalize_no_urlsafe s).1 hm1
        · exact absurd (List.eq_of_mem_replicate hm2) (by decide)
      · intro hm
        rcases List.mem_append.mp hm with hm1 | hm2
        · exact (normalize_no_urlsafe s).2 hm1
        · exact absurd (List.eq_of_mem_replicate hm2) (by decide)
      · intro hall
        refine isValidStdB64_append_pad _ _ ?_ ?_ (normalize_all_std s hall)
        · omega
        · omega

/-- Counterexample to C5 as stated: the input `!!` is not rejected (its
normalized length is 2 mod 4), yet the returned, correctly padded string
`!!==` is not valid standard base64, so "when it does not throw, the returned
string is valid standard base64" fails for arbitrary input strings. -/
theorem toBase64Standard_cex :
    toBase64Standard (("!!").toList) = some (("!!==").toList) ∧
    isValidStdB64 (("!!==").toList) = false := by decide

/-- Witness for C5 at the spec's own example `AAA-_A`: a URL-safe, remainder-2
input normalizes and pads to the valid standard base64 string `AAA+/A==`. -/
theorem toBase64Standard_spec_witness :
    toBase64Standard (("AAA-_A").toList) = some (("AAA+/A==").toList) ∧
    isValidStdB64 (("AAA+/A==").toList) = true := by
  have h := (toBase64Standard_spec (("AAA-_A").toList)).2
  have hout : toBase64Standard (("AAA-_A").toList) = some (("AAA+/A==").toList) := by
    decide
  exact ⟨hout, ((h _ hout).2.2.2) (by decide)⟩

end GeoVoice

namespace GeoVoice

/-! ## Session-machine helper lemmas -/

/-- Delivered PCM blocks only grow the accumulation buffer; the control fields
are untouched. -/
theorem pushPcmBlocks_fields (bs : List (List ℚ)) (s : SessionState) :
    (pushPcmBlocks bs s).wavUseFallback = s.wavUseFallback ∧
    (pushPcmBlocks bs s).timerOn = s.timerOn ∧
    (pushPcmBlocks bs s).elapsed = s.elapsed := by
  induction bs generalizing s with
  | nil => exact ⟨rfl, rfl, rfl⟩
  | cons b bs ih => exact ih (pushPcmBlock b s)

/-- Timer ticks do not change the selected capture path. -/
theorem tick_wav (ms : ℕ) (s : SessionState) :
    (tick ms s).wavUseFallback = s.wavUseFallback := by
  unfold tick; split <;> rfl

/-- A tick while the timer is live sets the measured elapsed time. -/
theorem tick_elapsed (ms : ℕ) (s : SessionState) (h : s.timerOn = true) :
    (tick ms s).elapsed = ms := by
  simp [tick, h]

/-- A successful `stop()` on the WAV-fallback path saves a record whose mime
type is the raw format identifier and whose duration is the session's own
elapsed time. -/
theorem stopWeb_fallback (env : StopEnvWeb) (s : SessionState) (r : Resources) (st : Store)
    (hwav : s.wavUseFallback = true) (hfs : env.fsWriteOk = true)
    (hix : env.indexWriteOk = true) :
    ∃ note, (stopWeb env s r st).saved = some note ∧
      note.mimeType = "audio/wav" ∧ note.durationMs = s.elapsed := by
  simp [stopWeb, persistWeb, hwav, hfs, hix]

/-! ## C3: the raw fallback path and its records -/

/-- C3. When the negotiator returns the "none" result, a successful `start()`
selects the raw PCM fallback path (`wavUseFallback` set, mime `audio/wav`),
and after any sequence of delivered PCM blocks and a timer reading `e`, a
successful `stop()` saves a record with `mimeType = "audio/wav"` and
`durationMs` equal to the session's measured elapsed time `e`. -/
theorem fallback_path_record (envS : StartEnvWeb) (envT : StopEnvWeb)
    (r : Resources) (st : Store) (blocks : List (List ℚ)) (e : ℕ)
    (hneg : pickSupportedType envS.mrAvailable envS.isTypeSupported envS.canPlayProbe = "")
    (hgum : envS.gumOk = true) (hctx : envS.audioCtxOk = true)
    (hfs : envT.fsWriteOk = true) (hix : envT.indexWriteOk = true) :
    (startWeb envS initialSession r).1.wavUseFallback = true ∧
    (startWeb envS initialSession r).1.mimeTypeRef = "audio/wav" ∧
    ∃ note,
      (stopWeb envT (tick e (pushPcmBlocks blocks (startWeb envS initialSession r).1))
          (startWeb envS initialSession r).2 st).saved = some note ∧
      note.mimeType = "audio/wav" ∧ note.durationMs = e := by
  have hw : (startWeb envS initialSession r).1.wavUseFallback = true := by
    simp [startWeb, hgum, hneg, hctx]
  have hm : (startWeb envS initialSession r).1.mimeTypeRef = "audio/wav" := by
    simp [startWeb, hgum, hneg, hctx]
  have ht : (startWeb envS initialSession r).1.timerOn = true := by
    simp [startWeb, hgum, hneg, hctx]
  obtain ⟨hw2, ht2, _⟩ := pushPcmBlocks_fields blocks (startWeb envS initialSession r).1
  obtain ⟨note, hsaved, hmime, hdur⟩ :=
    stopWeb_fallback envT (tick e (pushPcmBlocks blocks (startWeb envS initialSession r).1))
      (startWeb envS initialSession r).2 st (by rw [tick_wav, hw2, hw]) hfs hix
  refine ⟨hw, hm, note, hsaved, hmime, ?_⟩
  rw [hdur, tick_elapsed _ _ (by rw [ht2, ht])]

/-- A start environment whose negotiation finds no mutual type. -/
def c3StartEnv : StartEnvWeb :=
  { geoResult := none, gumOk := true, mrAvailable := false,
    isTypeSupported := fun _ => false, canPlayProbe := fun _ => false,
    mrConstructOk := true, audioCtxOk := true, ctxSampleRate := 48000 }

/-- A stop environment with both persistence writes succeeding. -/
def c3StopEnv : StopEnvWeb :=
  { fsWriteOk := true, indexWriteOk := true, newId := "w1", nowIso := "t", nowLocale := "l" }

/-- Witness for C3: a full run with no mutual codec, one PCM block and a timer
reading 1234 ms. -/
theorem fallback_path_record_witness :
    (startWeb c3StartEnv initialSession noResources).1.wavUseFallback = true ∧
    (startWeb c3StartEnv initialSession noResources).1.mimeTypeRef = "audio/wav" ∧
    ∃ note,
      (stopWeb c3StopEnv
          (tick 1234 (pushPcmBlocks [[0]] (startWeb c3StartEnv initialSession noResources).1))
          (startWeb c3StartEnv initialSession noResources).2 emptyStore).saved = some note ∧
      note.mimeType = "audio/wav" ∧ note.durationMs = 1234 :=
  fallback_path_record c3StartEnv c3StopEnv noResources emptyStore [[0]] 1234
    rfl rfl rfl rfl rfl

/-! ## C6: empty delegated payload -/

/-- C6. When the delegated facility's `stopRecording()` resolves but carries a
missing or empty `recordDataBase64`, the native `stop()` ends in
`FAILED_TO_RECORD` and persists nothing: the store (payload files and index)
is unchanged and no record is produced. -/
theorem stopNative_emptyPayload (env : StopEnvNative) (s : SessionState) (st : Store)
    (res : NativeResult) (hres : env.result = some res)
    (hmiss : payloadMissing res.recordDataBase64 = true) :
    (stopNative env s st).state.uiStatus = UIStatus.FAILED_TO_RECORD ∧
    (stopNative env s st).store = st ∧
    (stopNative env s st).saved = none := by
  simp [stopNative, hres, hmiss]

/-- A facility result reporting success with an empty payload. -/
def c6Res : NativeResult :=
  { recordDataBase64 := some "", msDuration := some 4200, mimeType := some "audio/m4a" }

/-- A native stop environment delivering `c6Res`. -/
def c6Env : StopEnvNative :=
  { result := some c6Res,
    fsWriteOk := true, getUriOk := true, indexWriteOk := true,
    resolveSrc := fun p => p, geoResult := none, newId := "n6",
    nowIso := "t", nowLocale := "l" }

/-- Witness for C6 at a concrete empty-payload result. -/
theorem stopNative_emptyPayload_witness :
    (stopNative c6Env initialSession emptyStore).state.uiStatus = UIStatus.FAILED_TO_RECORD ∧
    (stopNative c6Env initialSession emptyStore).store = emptyStore ∧
    (stopNative c6Env initialSession emptyStore).saved = none :=
  stopNative_emptyPayload c6Env initialSession emptyStore c6Res rfl (by decide)

/-! ## C7: record store round trip -/

/-- C7. Appending a record (payload write then index prepend) makes `list`
return the new record first with all prior records following in their prior
relative order, twice over for two sequential appends; and with ids drawn from
an injective fresh-id source (the contract of the uuid generator, which is
external code), two sequential appends never collide. -/
theorem store_append_spec (st : Store) (g : ℕ → String) (hg : Function.Injective g)
    (k : ℕ) (n1 n2 : Note) (p1 d1 p2 d2 : String)
    (h1 : n1.id = g k) (h2 : n2.id = g (k + 1)) :
    readNotes (appendRecord p1 d1 n1 st) = n1 :: readNotes st ∧
    readNotes (appendRecord p2 d2 n2 (appendRecord p1 d1 n1 st)) =
      n2 :: n1 :: readNotes st ∧
    n1.id ≠ n2.id := by
  refine ⟨rfl, rfl, ?_⟩
  rw [h1, h2]
  intro he
  have := hg he
  omega

/-- A first sample record. -/
def wNote1 : Note :=
  { id := "", filePath := "f1", webPath := "w1", createdAt := "c1", lat := 0, lon := 0,
    label := "L1", durationMs := 0, mimeType := "m1" }

/-- A second sample record with the next fresh id. -/
def wNote2 : Note :=
  { id := "x", filePath := "f2", webPath := "w2", createdAt := "c2", lat := 0, lon := 0,
    label := "L2", durationMs := 0, mimeType := "m2" }

/-- Witness for C7: two concrete appends onto the empty store. -/
theorem store_append_spec_witness :
    readNotes (appendRecord ("p1") ("d1") wNote1 emptyStore) =
      wNote1 :: readNotes emptyStore ∧
    readNotes (appendRecord ("p2") ("d2") wNote2
        (appendRecord ("p1") ("d1") wNote1 emptyStore)) =
      wNote2 :: wNote1 :: readNotes emptyStore ∧
    wNote1.id ≠ wNote2.id :=
  store_append_spec emptyStore (fun n => String.mk (List.replicate n 'x'))
    (fun a b h => by
      injection h with h3
      simpa using congrArg List.length h3)
    0 wNote1 wNote2 ("p1") ("d1") ("p2") ("d2") (by decide) (by decide)

/-! ## C8: resource release on failure paths -/

/-- A start environment taking the MediaRecorder path successfully. -/
def c8StartEnv : StartEnvWeb :=
  { geoResult := none, gumOk := true, mrAvailable := true,
    isTypeSupported := fun _ => true, canPlayProbe := fun _ => true,
    mrConstructOk := true, audioCtxOk := true, ctxSampleRate := 48000 }

/-- A stop environment whose payload write fails (a persistence failure). -/
def c8StopEnv : StopEnvWeb :=
  { fsWriteOk := false, indexWriteOk := true, newId := "n8", nowIso := "t", nowLocale := "l" }

/-- A start environment with no mutual codec whose AudioContext constructor
throws after `getUserMedia` has already acquired the stream. -/
def c8StartEnvCtxFail : StartEnvWeb :=
  { geoResult := none, gumOk := true, mrAvailable := false,
    isTypeSupported := fun _ => false, canPlayProbe := fun _ => false,
    mrConstructOk := true, audioCtxOk := false, ctxSampleRate := 48000 }

/-- C8 (evaluation of the code at the failing inputs). Contrary to the claim,
failure paths do not release every acquired capture resource: after a
MediaRecorder-path `start()` followed by a `stop()` whose payload write fails,
the session is `FAILED_TO_RECORD` and not recording, yet the `getUserMedia`
stream acquired by that attempt is still live (the MediaRecorder branch of
`stop()` and the catch handlers never stop the tracks); likewise a `start()`
that fails while building the fallback audio graph leaves the already-acquired
stream live. -/
theorem capture_failure_leaks_stream :
    (stopWeb c8StopEnv (startWeb c8StartEnv initialSession noResources).1
        (startWeb c8StartEnv initialSession noResources).2 emptyStore).state.uiStatus =
      UIStatus.FAILED_TO_RECORD ∧
    (stopWeb c8StopEnv (startWeb c8StartEnv initialSession noResources).1
        (startWeb c8StartEnv initialSession noResources).2 emptyStore).state.isRecording =
      false ∧
    (stopWeb c8StopEnv (startWeb c8StartEnv initialSession noResources).1
        (startWeb c8StartEnv initialSession noResources).2 emptyStore).res.liveStreams = 1 ∧
    (startWeb c8StartEnvCtxFail initialSession noResources).1.uiStatus =
      UIStatus.FAILED_TO_RECORD ∧
    (startWeb c8StartEnvCtxFail initialSession noResources).2.liveStreams = 1 := by
  decide

/-! ## C9: stop while idle -/

/-- C9 (amended). A `stop()` while idle (not recording, no recorder handle, no
fallback selected) persists nothing — the store is unchanged and no record is
produced — and leaves `isRecording` false; but instead of the state remaining
`IDLE`, the thrown "No recorder" error drives the UI state to
`FAILED_TO_RECORD`. -/
theorem stopWeb_idle_spec (env : StopEnvWeb) (s : SessionState) (r : Resources) (st : Store)
    (_hui : s.uiStatus = UIStatus.IDLE) (_hrec : s.isRecording = false)
    (hmr : s.mediaRecorderRef = false) (hwav : s.wavUseFallback = false) :
    (stopWeb env s r st).store = st ∧ (stopWeb env s r st).saved = none ∧
    (stopWeb env s r st).state.isRecording = false ∧
    (stopWeb env s r st).state.uiStatus = UIStatus.FAILED_TO_RECORD := by
  simp [stopWeb, hmr, hwav]

/-- A benign stop environment for the idle-stop runs. -/
def c9Env : StopEnvWeb :=
  { fsWriteOk := true, indexWriteOk := true, newId := "n9", nowIso := "t", nowLocale := "l" }

/-- Counterexample to C9 as stated: a `stop()` from the pristine idle session
leaves the store untouched but moves the state to `FAILED_TO_RECORD`, which is
not `IDLE`. -/
theorem stopWeb_idle_cex :
    (stopWeb c9Env initialSession noResources emptyStore).state.uiStatus =
      UIStatus.FAILED_TO_RECORD ∧
    UIStatus.FAILED_TO_RECORD ≠ UIStatus.IDLE ∧
    (stopWeb c9Env initialSession noResources emptyStore).store = emptyStore ∧
    (stopWeb c9Env initialSession noResources emptyStore).saved = none := by
  decide

/-- Witness for C9 (amended) at the pristine idle session. -/
theorem stopWeb_idle_spec_witness :
    (stopWeb c9Env initialSession noResources emptyStore).store = emptyStore ∧
    (stopWeb c9Env initialSession noResources emptyStore).saved = none ∧
    (stopWeb c9Env initialSession noResources emptyStore).state.isRecording = false ∧
    (stopWeb c9Env initialSession noResources emptyStore).state.uiStatus =
      UIStatus.FAILED_TO_RECORD :=
  stopWeb_idle_spec c9Env initialSession noResources emptyStore rfl rfl rfl rfl

/-! ## C10: delegated m4a result -/

/-- C10 (amended). For a delegated result with a valid payload, duration 4200
and mime `audio/m4a`, and all persistence steps succeeding: part_001's native
`stop()` saves a record with `durationMs = 4200`, `mimeType = "audio/m4a"` and
payload path `audio/<id>.m4a`; part_000's iOS `stop()` saves the same metadata
but stores the payload under `audio/<id>.webm`, because its `mimeToExt` has no
case matching the mime `audio/m4a` (so the claimed extension `m4a` holds only
for the part_001 variant). -/
theorem stopNative_m4a_spec (env : StopEnvNative) (s : SessionState) (st : Store)
    (res : NativeResult) (raw : String) (b64 : List Char)
    (hres : env.result = some res)
    (hraw : res.recordDataBase64 = some raw) (hne : raw ≠ "")
    (hnorm : toBase64Standard raw.toList = some b64)
    (hms : res.msDuration = some 4200) (hmime : res.mimeType = some "audio/m4a")
    (hfs : env.fsWriteOk = true) (huri : env.getUriOk = true)
    (hix : env.indexWriteOk = true) :
    (∃ note, (stopNative env s st).saved = some note ∧
      note.durationMs = 4200 ∧ note.mimeType = "audio/m4a" ∧
      note.filePath = "audio/" ++ env.newId ++ ".m4a") ∧
    (∃ n0, (GeoVoiceV0.stopIOS true env s st).saved = some n0 ∧
      n0.durationMs = 4200 ∧ n0.mimeType = "audio/m4a" ∧
      n0.filePath = "audio/" ++ env.newId ++ ".webm") := by
  have hext1 : nativeExt ("audio/m4a") = "m4a" := by decide
  have hext0 : GeoVoiceV0.mimeToExt ("audio/m4a") = "webm" := by decide
  have hdot1 : ("." : String) ++ ("m4a") = ".m4a" := rfl
  have hdot0 : ("." : String) ++ ("webm") = ".webm" := rfl
  have hmiss : payloadMissing (some raw) = false := by
    simp [payloadMissing, hne]
  have hnorm2 : toBase64Standard raw.data = some b64 := hnorm
  constructor
  · simp [stopNative, hres, hraw, hmiss, hnorm2, hms, hmime, hfs, huri, hix, hext1,
      String.append_assoc, hdot1]
  · simp [GeoVoiceV0.stopIOS, hres, hraw, hmiss, hnorm2, hms, hmime, hfs, huri, hix, hext0,
      String.append_assoc, hdot0]

/-- A delegated result with a valid payload, duration 4200 and mime m4a. -/
def c10Res : NativeResult :=
  { recordDataBase64 := some "QUJD", msDuration := some 4200, mimeType := some "audio/m4a" }

/-- A native stop environment delivering `c10Res` with all writes succeeding. -/
def c10Env : StopEnvNative :=
  { result := some c10Res,
    fsWriteOk := true, getUriOk := true, indexWriteOk := true,
    resolveSrc := fun p => p, geoResult := none, newId := "n10",
    nowIso := "t", nowLocale := "l" }

/-- Counterexample to C10 as stated: on part_000's delegated path the very
input of the claim stores the payload with extension `webm`, not `m4a`. -/
theorem stopIOS_m4a_cex :
    ((GeoVoiceV0.stopIOS true c10Env initialSession emptyStore).saved.map Note.filePath) =
      some ("audio/n10.webm") ∧
    ("audio/n10.webm" : String) ≠ "audio/n10.m4a" := by
  decide

/-- Witness for C10 (amended) at the concrete delegated result `c10Res`. -/
theorem stopNative_m4a_spec_witness :
    (∃ note, (stopNative c10Env initialSession emptyStore).saved = some note ∧
      note.durationMs = 4200 ∧ note.mimeType = "audio/m4a" ∧
      note.filePath = "audio/" ++ c10Env.newId ++ ".m4a") ∧
    (∃ n0, (GeoVoiceV0.stopIOS true c10Env initialSession emptyStore).saved = some n0 ∧
      n0.durationMs = 4200 ∧ n0.mimeType = "audio/m4a" ∧
      n0.filePath = "audio/" ++ c10Env.newId ++ ".webm") :=
  stopNative_m4a_spec c10Env initialSession emptyStore c10Res ("QUJD")
    (("QUJD").toList) rfl rfl (by decide) (by decide) rfl rfl rfl rfl rfl

end GeoVoice
